import Mathlib

/-!
Verification of the DataSmith post-discharge assistant core against its design
description.  The development shallowly embeds the Python sources:

* `agent_workflow.py` — the two-node handoff state machine (`receptionist_node`,
  `clinical_node`, `route_agent`, the compiled graph and `invoke_app`);
* `tools.py` — the patient-record lookup (`get_patient_discharge_report`);
* `rag_setup.py` — the retrieval chain (`SimpleRetrievalChain.invoke`).

External collaborators (the two LLM-driven role agents, `json.loads`, the vector
store's similarity search, the generation LLM) are modelled as parameters
gathered in environment structures; everything the repository itself computes is
translated function-by-function.  Machine strings are modelled as Lean `String`
(lists of unicode code points, matching Python `str` indexing/length on the
fragments exercised here); `str.lower` is modelled on the ASCII fragment, which
covers every keyword and sentinel the code compares against.
-/

namespace DataSmith

/-! ### Python string primitives -/

/-- ASCII lowercasing of one character (fragment of Python `str.lower`). -/
def charLower (c : Char) : Char :=
  if 'A' ≤ c ∧ c ≤ 'Z' then Char.ofNat (c.toNat + 32) else c

/-- Python `s.lower()` on the ASCII fragment. -/
def strLower (s : String) : String :=
  String.mk (s.data.map charLower)

/-- Does the first list lead the second (`needle` matches at position 0)? -/
def listLeads : List Char → List Char → Bool
  | [], _ => true
  | _ :: _, [] => false
  | a :: as, b :: bs => a == b && listLeads as bs

/-- Python `pat in hay` (substring containment). -/
def strContains (hay pat : String) : Bool :=
  (List.range (hay.data.length + 1)).any (fun i => listLeads pat.data (hay.data.drop i))

/-- Python whitespace stripped by `str.strip()` (ASCII fragment). -/
def isPyWs (c : Char) : Bool :=
  c == ' ' || c == Char.ofNat 9 || c == Char.ofNat 10 || c == Char.ofNat 13 ||
  c == Char.ofNat 12 || c == Char.ofNat 11

/-- Python `s.strip()`. -/
def pyStrip (s : String) : String :=
  String.mk (((s.data.dropWhile isPyWs).reverse.dropWhile isPyWs).reverse)

/-- Python `s.find(pat)`: index of the first occurrence (`none` for `-1`). -/
def pyFind (hay pat : String) : Option Nat :=
  (List.range (hay.data.length + 1)).find? (fun i => listLeads pat.data (hay.data.drop i))

/-- Python `s.rfind(pat)`: index of the last occurrence (`none` for `-1`). -/
def pyRfind (hay pat : String) : Option Nat :=
  ((List.range (hay.data.length + 1)).reverse).find? (fun i => listLeads pat.data (hay.data.drop i))

/-- Python `s[a:b]` for `0 ≤ a`, `0 ≤ b` (empty when `a ≥ b`). -/
def pySlice (s : String) (a b : Nat) : String :=
  String.mk ((s.data.drop a).take (b - a))

/-- Python `s[:n]`. -/
def pyTake (s : String) (n : Nat) : String :=
  String.mk (s.data.take n)

/-- Python `sep.join(xs)`. -/
def sepJoin (sep : String) : List String → String
  | [] => ""
  | [x] => x
  | x :: xs => x ++ sep ++ sepJoin sep xs

/-! ### JSON values and `json.dumps(·, indent=2)`

Numeric literals are carried as their rendered decimal text (the repository
never computes with them — it only serializes what `json.load`/`json.loads`
produced). -/

inductive Jsn where
  | null
  | bool (b : Bool)
  | num (lit : String)
  | str (v : String)
  | arr (vs : List Jsn)
  | obj (fields : List (String × Jsn))
deriving Inhabited

/-- Lowercase hexadecimal digit. -/
def hexDigit (n : Nat) : Char :=
  if n < 10 then Char.ofNat (48 + n) else Char.ofNat (87 + n)

/-- Four-digit `\uXXXX` payload. -/
def u4 (n : Nat) : List Char :=
  [hexDigit (n / 4096 % 16), hexDigit (n / 256 % 16), hexDigit (n / 16 % 16), hexDigit (n % 16)]

/-- One character of a JSON string, escaped as by `json.dumps` (`ensure_ascii`). -/
def jsonEscapeChar (c : Char) : List Char :=
  if c == '"' then ['\\', '"']
  else if c == '\\' then ['\\', '\\']
  else if c == Char.ofNat 10 then ['\\', 'n']
  else if c == Char.ofNat 9 then ['\\', 't']
  else if c == Char.ofNat 13 then ['\\', 'r']
  else if c == Char.ofNat 8 then ['\\', 'b']
  else if c == Char.ofNat 12 then ['\\', 'f']
  else if c.toNat < 32 || c.toNat > 126 then
    if c.toNat ≤ 65535 then '\\' :: 'u' :: u4 c.toNat
    else
      let v := c.toNat - 65536
      ('\\' :: 'u' :: u4 (55296 + v / 1024)) ++ ('\\' :: 'u' :: u4 (56320 + v % 1024))
  else [c]

/-- A JSON string literal with surrounding quotes. -/
def jsonQuote (s : String) : String :=
  String.mk ('"' :: (s.data.flatMap jsonEscapeChar ++ ['"']))

/-- `n` spaces. -/
def spaces (n : Nat) : String :=
  String.mk (List.replicate n ' ')

mutual

/-- `json.dumps(v, indent=2)` at nesting depth `d`. -/
def dumpVal : Jsn → Nat → String
  | .null, _ => "null"
  | .bool b, _ => if b then "true" else "false"
  | .num l, _ => l
  | .str v, _ => jsonQuote v
  | .arr [], _ => "[]"
  | .arr (v :: vs), d =>
      "[\n" ++ dumpArr (v :: vs) (d + 1) ++ "\n" ++ spaces (2 * d) ++ "]"
  | .obj [], _ => "\x7b\x7d"
  | .obj (f :: fs), d =>
      "\x7b\n" ++ dumpObj (f :: fs) (d + 1) ++ "\n" ++ spaces (2 * d) ++ "\x7d"

/-- Array items, one per line. -/
def dumpArr : List Jsn → Nat → String
  | [], _ => ""
  | [v], d => spaces (2 * d) ++ dumpVal v d
  | v :: w :: vs, d => spaces (2 * d) ++ dumpVal v d ++ ",\n" ++ dumpArr (w :: vs) d

/-- Object members, one per line. -/
def dumpObj : List (String × Jsn) → Nat → String
  | [], _ => ""
  | [(k, v)], d => spaces (2 * d) ++ jsonQuote k ++ ": " ++ dumpVal v d
  | (k, v) :: g :: fs, d =>
      spaces (2 * d) ++ jsonQuote k ++ ": " ++ dumpVal v d ++ ",\n" ++ dumpObj (g :: fs) d

end

/-- `json.dumps(v, indent=2)`. -/
def pyDumps (v : Jsn) : String := dumpVal v 0

/-- One assignment into a Python dict (overwrite keeps the original position). -/
def dictSet (d : List (String × Jsn)) (k : String) (v : Jsn) : List (String × Jsn) :=
  if (d.map Prod.fst).contains k then
    d.map (fun kv => if kv.1 == k then (k, v) else kv)
  else d ++ [(k, v)]

/-- Evaluation of a Python dict display (later pairs overwrite earlier keys). -/
def pyDictLit (pairs : List (String × Jsn)) : List (String × Jsn) :=
  pairs.foldl (fun d kv => dictSet d kv.1 kv.2) []

/-! ### Conversation state (`agent_workflow.py`)

`AgentState` is the graph state: `messages` (reduced by `operator.add`, i.e.
list append), `current_agent`, `patient_report`.  LangChain messages are
`HumanMessage`/`AIMessage`/tool messages; only the `content` text and the
`AIMessage` type test matter to the embedded code. -/

inductive Msg where
  | human (text : String)
  | ai (text : String)
  | tool (text : String)
deriving Repr, DecidableEq

/-- The `content` attribute. -/
def Msg.content : Msg → String
  | .human t => t
  | .ai t => t
  | .tool t => t

/-- `isinstance(msg, AIMessage)`. -/
def Msg.isAI : Msg → Bool
  | .ai _ => true
  | _ => false

structure AgentState where
  messages : List Msg
  current_agent : String
  patient_report : String
deriving Repr, DecidableEq

/-- What a node hands back to the framework: one appended message plus the two
overwritten scalar fields. -/
structure NodeOut where
  messages : List Msg
  current_agent : String
  patient_report : String
deriving Repr, DecidableEq

/-- LangGraph merges a node's partial update into the state (`operator.add`
reducer on `messages`, overwrite elsewhere). -/
def applyOut (s : AgentState) (o : NodeOut) : AgentState :=
  ⟨s.messages ++ o.messages, o.current_agent, o.patient_report⟩

/-- What `receptionist_agent.invoke` / `clinical_agent.invoke` hand back:
`result.get("output")` and `result.get("messages")`. -/
structure AgentRes where
  output : String
  messages : List Msg

/-- External collaborators: the two role agents (which may raise — `.error`
carries `str(e)`) and `json.loads` (`none` models a raised parse error). -/
structure Env where
  receptionist_agent : AgentState → Except String AgentRes
  clinical_agent : AgentState → Except String AgentRes
  json_loads : String → Option Jsn

/-! ### Receptionist node -/

/-- The medical-keyword heuristic list, verbatim from `receptionist_node`. -/
def medical_keywords : List String :=
  ["swelling", "pain", "shortness of breath", "sob", "should i be worried",
   "should i", "symptom", "symptoms", "medication", "side effect", "side-effect",
   "diet", "dietary", "eating", "dizziness", "fever", "blood", "urine", "edema",
   "leg swelling", "leg swollen", "sore", "bleeding", "rash", "chest pain"]

/-- The reversed scan for the last non-`AIMessage` content (`""` when absent,
matching the untouched `user_query = ""` initializer). -/
def lastUserQuery (messages : List Msg) : String :=
  match messages.reverse.find? (fun m => !m.isAI) with
  | some m => m.content
  | none => ""

/-- `user_query` is non-empty and its lowercasing contains a medical keyword. -/
def keywordHit (state : AgentState) : Bool :=
  let user_query := lastUserQuery state.messages
  user_query != "" && medical_keywords.any (fun k => strContains (strLower user_query) k)

/-- First `"{"` to last `"}"` of a content string, the candidate JSON payload
(`content[start:end]` with `start = content.find("{")`,
`end = content.rfind("}") + 1`). -/
def jsonSlice (content : String) : String :=
  pySlice content ((pyFind content "\x7b").getD 0) ((pyRfind content "\x7d").getD 0 + 1)

/-- One iteration of the report-extraction loop of `receptionist_node`: a
marker-bearing payload that parses overwrites `patient_report` with its
re-serialization; everything else (missing markers, missing braces, a parse
failure caught by the bare `except`) leaves the accumulator untouched. -/
def scanStep (json_loads : String → Option Jsn) (patient_report : String) (msg : Msg) : String :=
  let content := msg.content
  if strContains content "patient_name" && strContains content "discharge_date" then
    if strContains content "\x7b" && strContains content "\x7d" then
      match json_loads (jsonSlice content) with
      | some patient_data => pyDumps patient_data
      | none => patient_report
    else patient_report
  else patient_report

/-- The best-effort report extraction loop of `receptionist_node`: fold
`scanStep` over the agent's messages. -/
def scanReport (json_loads : String → Option Jsn) (msgs : List Msg) (init : String) : String :=
  msgs.foldl (scanStep json_loads) init

/-- `receptionist_node` from `agent_workflow.py`. -/
def receptionist_node (env : Env) (state : AgentState) : NodeOut :=
  if keywordHit state then
    ⟨[Msg.ai "HANDOFF_TO_CLINICAL"], "Clinical Agent", state.patient_report⟩
  else
    match env.receptionist_agent state with
    | .error e =>
        ⟨[Msg.ai ("I encountered an error: " ++ e ++ ". Please try again.")],
          "Receptionist Agent", state.patient_report⟩
    | .ok result =>
        let output_text := result.output
        let ai_message := Msg.ai output_text
        let patient_report := scanReport env.json_loads result.messages state.patient_report
        if strContains output_text "HANDOFF_TO_CLINICAL" then
          ⟨[ai_message], "Clinical Agent", patient_report⟩
        else
          ⟨[ai_message], "Receptionist Agent", patient_report⟩

/-- `clinical_node` from `agent_workflow.py`. -/
def clinical_node (env : Env) (state : AgentState) : NodeOut :=
  match env.clinical_agent state with
  | .error e =>
      ⟨[Msg.ai ("I encountered an error while processing your medical question: " ++ e ++
          ". Please try again or rephrase your question.")],
        "Clinical Agent", state.patient_report⟩
  | .ok result =>
      let output_text := result.output
      if strContains output_text "HANDOFF_TO_RECEPTIONIST" then
        ⟨[Msg.ai output_text], "Receptionist Agent", state.patient_report⟩
      else
        ⟨[Msg.ai output_text], "Clinical Agent", state.patient_report⟩

/-! ### Router and compiled graph -/

inductive Route where
  | receptionist_agent_node
  | clinical_agent_node
  | END
deriving Repr, DecidableEq

/-- `route_agent` from `agent_workflow.py`, translated branch by branch. -/
def route_agent (state : AgentState) : Route :=
  let current_agent := state.current_agent
  let messages := state.messages
  let fallback :=
    if current_agent == "Clinical Agent" then Route.clinical_agent_node
    else if current_agent == "Receptionist Agent" then Route.receptionist_agent_node
    else Route.END
  if messages.length ≥ 2 then
    match messages.getLast? with
    | some last_msg =>
        if last_msg.isAI then
          let content := last_msg.content
          if strContains content "HANDOFF_TO_CLINICAL" && current_agent == "Receptionist Agent" then
            Route.clinical_agent_node
          else if strContains content "HANDOFF_TO_RECEPTIONIST" && current_agent == "Clinical Agent" then
            Route.receptionist_agent_node
          else if content.length > 15 && !(strContains content "HANDOFF") then
            Route.END
          else fallback
        else fallback
    | none => fallback
  else fallback

inductive NodeName where
  | receptionist_agent_node
  | clinical_agent_node
deriving Repr, DecidableEq

/-- `workflow.set_entry_point("receptionist_agent_node")`. -/
def entry_point : NodeName := NodeName.receptionist_agent_node

def execNode (env : Env) : NodeName → AgentState → NodeOut
  | .receptionist_agent_node => receptionist_node env
  | .clinical_agent_node => clinical_node env

/-- The conditional-edge tables map each route name to the same-named node and
`END` to termination. -/
def routeTarget : Route → Option NodeName
  | .receptionist_agent_node => some NodeName.receptionist_agent_node
  | .clinical_agent_node => some NodeName.clinical_agent_node
  | .END => none

/-- LangGraph execution of the compiled graph with a recursion limit: run the
pending node, merge its update, consult `route_agent`, repeat.  Returns the
executed-node trace together with either the final state or, when the limit is
exhausted with a node still pending, the `GraphRecursionError` — whose payload
here records the state accumulated up to the cutoff (the Python exception
carries no state; the payload only serves the analysis). -/
def runGraph (env : Env) : Nat → NodeName → AgentState → List NodeName × Except AgentState AgentState
  | 0, _, s => ([], .error s)
  | fuel + 1, node, s =>
      let s' := applyOut s (execNode env node s)
      match routeTarget (route_agent s') with
      | none => ([node], .ok s')
      | some next =>
          let rest := runGraph env fuel next s'
          (node :: rest.1, rest.2)

/-- `app.invoke(state, config={"recursion_limit": limit})`. -/
def appInvoke (env : Env) (state : AgentState) (recursion_limit : Nat) :
    Except AgentState AgentState :=
  (runGraph env recursion_limit entry_point state).2

/-- The executed-node trace of the same run. -/
def appTrace (env : Env) (state : AgentState) (recursion_limit : Nat) : List NodeName :=
  (runGraph env recursion_limit entry_point state).1

/-- `invoke_app` from `agent_workflow.py`: invoke with recursion limit 10 and,
on any exception, return the incoming state as-is. -/
def invoke_app (env : Env) (state : AgentState) : AgentState :=
  match appInvoke env state 10 with
  | .ok result => result
  | .error _ => state

/-! ### Lookup Service (`tools.py`) -/

/-- The match-collection loop of `get_patient_discharge_report` over the
database's keys (exact case-insensitive equality, `elif` substring containment
in either direction). -/
def lookupMatches (db : List (String × List (String × Jsn))) (patient_name : String) :
    List String :=
  let patient_name_lower := strLower (pyStrip patient_name)
  (db.map Prod.fst).filter (fun db_name =>
    strLower db_name == patient_name_lower ||
      (strContains (strLower db_name) patient_name_lower ||
        strContains patient_name_lower (strLower db_name)))

/-- `get_patient_discharge_report` from `tools.py`, parametrized by the
`PATIENT_DATABASE` loaded at startup (a JSON object of record objects). -/
def get_patient_discharge_report (db : List (String × List (String × Jsn)))
    (patient_name : String) : String :=
  let found_matches := lookupMatches db patient_name
  if found_matches.length > 1 then
    "ERROR: Multiple patients found with similar names: " ++ sepJoin ", " found_matches ++
      ". Please provide the full exact name."
  else
    match found_matches with
    | [exact_name] =>
        let report := (db.lookup exact_name).getD []
        pyDumps (Jsn.obj (pyDictLit (("patient_name", Jsn.str exact_name) :: report)))
    | _ =>
        "ERROR: Patient '" ++ patient_name ++
          "' not found in the database. Please check the spelling or confirm the patient's identity."

/-! ### Reference Query Service (`rag_setup.py`) -/

structure Doc where
  page_content : String
deriving Repr, DecidableEq

/-- External collaborators of `SimpleRetrievalChain.invoke`: the vector store's
`similarity_search(query, k)` (its surrounding `try` turns any raise into
`docs = []`, so it is total here) and the prompted generation LLM applied to
`(context, question)`. -/
structure RagEnv where
  similarity_search : String → Nat → List Doc
  llm : String → String → Except String String

/-- `k` as constructed by `setup_rag_retriever` (and the constructor default). -/
def chain_k : Nat := 3

/-- `f"[Section {i}]\n{content[:2000]}"` pieces for `enumerate(docs, start)`. -/
def contextPiecesFrom : Nat → List Doc → List String
  | _, [] => []
  | i, d :: ds =>
      ("[Section " ++ toString i ++ "]\n" ++ pyTake d.page_content 2000) ::
        contextPiecesFrom (i + 1) ds

/-- The context pieces for `enumerate(docs, 1)`. -/
def contextPieces (docs : List Doc) : List String :=
  contextPiecesFrom 1 docs

/-- `"\n\n---\n\n".join(context_pieces)`. -/
def contextFor (docs : List Doc) : String :=
  sepJoin "\n\n---\n\n" (contextPieces docs)

/-- `SimpleRetrievalChain.invoke` from `rag_setup.py` (the returned dict's
`"output"` entry). -/
def ragInvoke (env : RagEnv) (k : Nat) (query : String) : String :=
  let docs := env.similarity_search query k
  if docs.isEmpty then
    "No relevant context found in the local nephrology reference. Please try rephrasing or allow web search."
  else
    let context := contextFor docs
    match env.llm context query with
    | .ok answer =>
        answer ++ "\n\n[Source: Internal Nephrology Reference - " ++ toString docs.length ++
          " section(s) retrieved]"
    | .error e =>
        "Retrieved context:\n" ++ context ++
          "\n\n[Source: Internal Nephrology Reference] - (LLM generation failed with error: " ++
          e ++ ")"

/-! ### Roles, as the spec speaks about them -/

inductive Role where
  | receptionist
  | clinical
deriving Repr, DecidableEq

/-- The other role. -/
def Role.other : Role → Role
  | .receptionist => .clinical
  | .clinical => .receptionist

/-- The `current_agent` string naming a role. -/
def Role.agentName : Role → String
  | .receptionist => "Receptionist Agent"
  | .clinical => "Clinical Agent"

/-- The sentinel that hands control *to* the given role. -/
def handoffSentinel : Role → String
  | .receptionist => "HANDOFF_TO_RECEPTIONIST"
  | .clinical => "HANDOFF_TO_CLINICAL"

/-- The route constant naming a role's node. -/
def Role.nodeRoute : Role → Route
  | .receptionist => Route.receptionist_agent_node
  | .clinical => Route.clinical_agent_node

/-! ### Helper lemmas -/

theorem listLeads_trans (p q l : List Char) (hpq : listLeads p q = true)
    (h : listLeads q l = true) : listLeads p l = true := by
  induction p generalizing q l with
  | nil => rfl
  | cons a as ih =>
      cases q with
      | nil => simp [listLeads] at hpq
      | cons b bs =>
          cases l with
          | nil => simp [listLeads] at h
          | cons c cs =>
              simp only [listLeads, Bool.and_eq_true, beq_iff_eq] at hpq h ⊢
              exact ⟨hpq.1.trans h.1, ih bs cs hpq.2 h.2⟩

/-- Containment is monotone along pattern prefixes: if `hay` contains `q` and
`p` leads `q`, then `hay` contains `p`. -/
theorem strContains_mono (hay p q : String) (hpq : listLeads p.data q.data = true)
    (h : strContains hay q = true) : strContains hay p = true := by
  unfold strContains at h ⊢
  rw [List.any_eq_true] at h ⊢
  obtain ⟨i, hi, hl⟩ := h
  exact ⟨i, hi, listLeads_trans _ _ _ hpq hl⟩

theorem runGraph_trace_le (env : Env) (fuel : Nat) (node : NodeName) (s : AgentState) :
    (runGraph env fuel node s).1.length ≤ fuel := by
  induction fuel generalizing node s with
  | zero => simp [runGraph]
  | succ n ih =>
      unfold runGraph
      cases h : routeTarget (route_agent (applyOut s (execNode env node s))) with
      | none => simp [h]
      | some next =>
          simp only [h]
          simpa using Nat.succ_le_succ (ih next (applyOut s (execNode env node s)))

theorem runGraph_head (env : Env) (fuel : Nat) (node : NodeName) (s : AgentState) :
    (runGraph env (fuel + 1) node s).1.head? = some node := by
  unfold runGraph
  cases h : routeTarget (route_agent (applyOut s (execNode env node s))) <;> simp [h]

/-- The condition under which one extraction step overwrites the accumulator:
both markers present, both braces present, and the parse succeeds. -/
abbrev extractionFires (jl : String → Option Jsn) (m : Msg) : Prop :=
  strContains m.content "patient_name" = true ∧
  strContains m.content "discharge_date" = true ∧
  strContains m.content "\x7b" = true ∧ strContains m.content "\x7d" = true ∧
  (jl (jsonSlice m.content)).isSome = true

theorem scanStep_not_good (jl : String → Option Jsn) (init : String) (m : Msg)
    (h1 : ¬ extractionFires jl m) :
    scanStep jl init m = init := by
  simp only [scanStep]
  split
  · split
    · cases he : jl (jsonSlice m.content) with
      | none => rfl
      | some v =>
          exfalso
          apply h1
          rename_i hmark hbr
          rw [Bool.and_eq_true] at hmark hbr
          exact ⟨hmark.1, hmark.2, hbr.1, hbr.2, by simp [he]⟩
    · rfl
  · rfl

theorem scanReport_unchanged (jl : String → Option Jsn) (ms : List Msg) (init : String)
    (h : ∀ m ∈ ms, ¬ extractionFires jl m) :
    scanReport jl ms init = init := by
  induction ms generalizing init with
  | nil => rfl
  | cons m ms ih =>
      unfold scanReport at ih ⊢
      rw [List.foldl_cons, scanStep_not_good jl init m (h m (by simp))]
      exact ih init (fun m' hm' => h m' (by simp [hm']))

theorem contextPiecesFrom_getD (start : Nat) (ds : List Doc) (i : Nat) (h : i < ds.length) :
    (contextPiecesFrom start ds).getD i "" =
      "[Section " ++ toString (start + i) ++ "]\n" ++ pyTake (ds.getD i ⟨""⟩).page_content 2000 := by
  induction ds generalizing start i with
  | nil => simp at h
  | cons d ds ih =>
      cases i with
      | zero => simp [contextPiecesFrom]
      | succ j =>
          simp only [contextPiecesFrom, List.getD_cons_succ]
          rw [ih (start + 1) j (by simp only [List.length_cons] at h; omega)]
          have harith : start + 1 + j = start + (j + 1) := by omega
          rw [harith]

/-- Shape of `route_agent` on a state whose last message is an assistant
message and whose history has at least two entries. -/
theorem route_agent_ai_last (pre : List Msg) (c cur rep : String) (hpre : pre ≠ []) :
    route_agent ⟨pre ++ [Msg.ai c], cur, rep⟩ =
      (if strContains c "HANDOFF_TO_CLINICAL" && cur == "Receptionist Agent" then
        Route.clinical_agent_node
      else if strContains c "HANDOFF_TO_RECEPTIONIST" && cur == "Clinical Agent" then
        Route.receptionist_agent_node
      else if c.length > 15 && !(strContains c "HANDOFF") then
        Route.END
      else if cur == "Clinical Agent" then Route.clinical_agent_node
      else if cur == "Receptionist Agent" then Route.receptionist_agent_node
      else Route.END) := by
  have hlen : (pre ++ [Msg.ai c]).length ≥ 2 := by
    have : 0 < pre.length := List.length_pos.mpr hpre
    simp only [List.length_append, List.length_cons, List.length_nil]
    omega
  have hlast : (pre ++ [Msg.ai c]).getLast? = some (Msg.ai c) := by
    simp [List.getLast?_concat]
  unfold route_agent
  simp only [hlen, if_pos, hlast, Msg.isAI, Msg.content, if_true]

/-! ### C1 — the routing transition rule -/

/-- Input refuting C1 as stated: the Receptionist produced the (own-role)
sentinel text `HANDOFF_TO_RECEPTIONIST`, which contains no sentinel for the
other role and is 23 characters long. -/
def c1CexState : AgentState :=
  ⟨[Msg.human "hi", Msg.ai "HANDOFF_TO_RECEPTIONIST"], "Receptionist Agent", ""⟩

/-- C1 (counterexample).  The claim says a non-trivial assistant message
(length above 15) carrying no sentinel for the other role makes the router
return `END`.  On this state the last assistant message was produced by the
Receptionist (per `current_agent`), does not contain the other role's sentinel
`HANDOFF_TO_CLINICAL`, and has length 23 > 15 — yet `route_agent` re-invokes
the Receptionist node instead of terminating, because the code additionally
requires the text not to contain the bare substring `"HANDOFF"`. -/
theorem c1_counterexample :
    c1CexState.messages.getLast? = some (Msg.ai "HANDOFF_TO_RECEPTIONIST") ∧
    c1CexState.current_agent = Role.agentName Role.receptionist ∧
    strContains "HANDOFF_TO_RECEPTIONIST" (handoffSentinel (Role.other Role.receptionist)) = false ∧
    15 < ("HANDOFF_TO_RECEPTIONIST" : String).length ∧
    route_agent c1CexState = Route.receptionist_agent_node ∧
    route_agent c1CexState ≠ Route.END := by
  refine ⟨rfl, rfl, by decide, by decide, by decide, by decide⟩

/-- C1 (amended).  For every state with at least two messages whose last
message is an assistant message produced by the role named in `current_agent`:
a text containing the sentinel for the other role routes to that role's node
regardless of length (sentinel detection takes priority over the length
heuristic, so such a message never terminates); otherwise a text of length
above 15 that moreover does not contain the substring `"HANDOFF"` yields
`END`; otherwise the router re-invokes the node of the role that produced the
message. -/
theorem c1_route_transition (pre : List Msg) (c rep : String) (r : Role) (hpre : pre ≠ []) :
    (strContains c (handoffSentinel (Role.other r)) = true →
      route_agent ⟨pre ++ [Msg.ai c], r.agentName, rep⟩ = Role.nodeRoute (Role.other r)) ∧
    (strContains c (handoffSentinel (Role.other r)) = false → 15 < c.length →
      strContains c "HANDOFF" = false →
      route_agent ⟨pre ++ [Msg.ai c], r.agentName, rep⟩ = Route.END) ∧
    (strContains c (handoffSentinel (Role.other r)) = false →
      ¬(15 < c.length ∧ strContains c "HANDOFF" = false) →
      route_agent ⟨pre ++ [Msg.ai c], r.agentName, rep⟩ = Role.nodeRoute r) := by
  have key := route_agent_ai_last pre c r.agentName rep hpre
  have beqRR : (("Receptionist Agent" : String) == "Receptionist Agent") = true := by decide
  have beqRC : (("Receptionist Agent" : String) == "Clinical Agent") = false := by decide
  have beqCC : (("Clinical Agent" : String) == "Clinical Agent") = true := by decide
  have beqCR : (("Clinical Agent" : String) == "Receptionist Agent") = false := by decide
  refine ⟨?_, ?_, ?_⟩
  · intro hsent
    cases r with
    | receptionist =>
        simp only [Role.agentName, Role.other, handoffSentinel, Role.nodeRoute] at key hsent ⊢
        rw [key]
        simp [hsent, beqRR]
    | clinical =>
        simp only [Role.agentName, Role.other, handoffSentinel, Role.nodeRoute] at key hsent ⊢
        rw [key]
        simp [hsent, beqCC, beqCR]
  · intro hsent hlen hhand
    have hclin : strContains c "HANDOFF_TO_CLINICAL" = false := by
      cases hx : strContains c "HANDOFF_TO_CLINICAL" with
      | false => rfl
      | true =>
          have := strContains_mono c "HANDOFF" "HANDOFF_TO_CLINICAL" (by decide) hx
          rw [this] at hhand
          exact absurd hhand (by simp)
    have hrecep : strContains c "HANDOFF_TO_RECEPTIONIST" = false := by
      cases hx : strContains c "HANDOFF_TO_RECEPTIONIST" with
      | false => rfl
      | true =>
          have := strContains_mono c "HANDOFF" "HANDOFF_TO_RECEPTIONIST" (by decide) hx
          rw [this] at hhand
          exact absurd hhand (by simp)
    have hd : decide (c.length > 15) = true := decide_eq_true hlen
    cases r with
    | receptionist =>
        simp only [Role.agentName] at key ⊢
        rw [key]
        simp [hclin, hrecep, hd, hhand]
    | clinical =>
        simp only [Role.agentName] at key ⊢
        rw [key]
        simp [hclin, hrecep, hd, hhand]
  · intro hsent hshort
    have hlenband : (decide (c.length > 15) && !(strContains c "HANDOFF")) = false := by
      cases hx : decide (c.length > 15) with
      | false => simp
      | true =>
          cases hy : strContains c "HANDOFF" with
          | true => simp [hy]
          | false => exact absurd ⟨of_decide_eq_true hx, hy⟩ hshort
    cases r with
    | receptionist =>
        simp only [Role.agentName, Role.other, handoffSentinel, Role.nodeRoute] at key hsent ⊢
        rw [key]
        simp [hsent, hlenband, beqRR, beqRC]
    | clinical =>
        simp only [Role.agentName, Role.other, handoffSentinel, Role.nodeRoute] at key hsent ⊢
        rw [key]
        simp [hsent, hlenband, beqCC, beqCR]

/-- C1 (witness): the amended rule applied at concrete inputs — a handoff
sentinel routes to the Clinical node, a 38-character plain answer terminates,
and a short stub re-invokes the producing node. -/
theorem c1_route_transition_witness :
    route_agent ⟨[Msg.human "hi", Msg.ai "HANDOFF_TO_CLINICAL"], "Receptionist Agent", ""⟩ =
      Route.clinical_agent_node ∧
    route_agent ⟨[Msg.human "hi", Msg.ai "Your follow-up visit is on March third."],
        "Receptionist Agent", ""⟩ = Route.END ∧
    route_agent ⟨[Msg.human "hi", Msg.ai "ok"], "Clinical Agent", ""⟩ =
      Route.clinical_agent_node := by
  refine ⟨?_, ?_, ?_⟩
  · exact (c1_route_transition [Msg.human "hi"] "HANDOFF_TO_CLINICAL" "" Role.receptionist
      (by decide)).1 (by decide)
  · exact (c1_route_transition [Msg.human "hi"] "Your follow-up visit is on March third." ""
      Role.receptionist (by decide)).2.1 (by decide) (by decide) (by decide)
  · exact (c1_route_transition [Msg.human "hi"] "ok" "" Role.clinical
      (by decide)).2.2 (by decide) (by decide)

/-! ### C2 — the driving entry point `invoke_app` -/

/-- An environment whose Clinical agent keeps answering with the empty stub, so
the router re-invokes it forever and the 10-step budget is exhausted. -/
def loopEnv : Env :=
  { receptionist_agent := fun _ => .ok ⟨"", []⟩
    clinical_agent := fun _ => .ok ⟨"", []⟩
    json_loads := fun _ => none }

/-- A turn that starts with a medical-keyword user message, so the first step
deterministically hands off to the looping Clinical node. -/
def c2state : AgentState :=
  ⟨[Msg.human "I have swelling in my legs"], "Receptionist Agent", ""⟩

/-- The state accumulated when the budget runs out on `c2state` under
`loopEnv`: the handoff message plus nine empty Clinical answers. -/
def c2accState : AgentState :=
  ⟨[Msg.human "I have swelling in my legs", Msg.ai "HANDOFF_TO_CLINICAL"] ++
      List.replicate 9 (Msg.ai ""), "Clinical Agent", ""⟩

/-- C2 (counterexample).  The claim says that when the step budget is exceeded
`invoke_app` returns "the state as accumulated so far".  On this run the
budget is exceeded with eleven messages accumulated, yet `invoke_app` returns
the unmodified one-message incoming state: `app.invoke` raises
`GraphRecursionError` and the `except` branch returns the *incoming* state
as-is, discarding the accumulation. -/
theorem c2_counterexample :
    appInvoke loopEnv c2state 10 = Except.error c2accState ∧
    invoke_app loopEnv c2state = c2state ∧
    c2accState.messages.length = 11 ∧
    c2state ≠ c2accState := by
  exact ⟨rfl, rfl, by decide, by decide⟩

/-- C2 (amended).  `invoke_app` is a total function (never raises), the run it
drives executes at most 10 node invocations per turn, exceeding the budget
terminates silently with the *unmodified incoming* state (not the accumulated
one), and a normal in-budget completion returns the machine's final state. -/
theorem c2_invoke_app_budget (env : Env) (state : AgentState) :
    (appTrace env state 10).length ≤ 10 ∧
    (∀ acc, appInvoke env state 10 = Except.error acc → invoke_app env state = state) ∧
    (∀ result, appInvoke env state 10 = Except.ok result → invoke_app env state = result) := by
  refine ⟨runGraph_trace_le env 10 entry_point state, ?_, ?_⟩
  · intro acc h
    unfold invoke_app
    rw [h]
  · intro result h
    unfold invoke_app
    rw [h]

/-- An environment whose Receptionist answers with a long plain greeting, so
the turn ends after a single step. -/
def greetEnv : Env :=
  { receptionist_agent := fun _ => .ok ⟨"Hello! How can I help you today?", []⟩
    clinical_agent := fun _ => .ok ⟨"", []⟩
    json_loads := fun _ => none }

def greetState : AgentState := ⟨[Msg.human "hi"], "Receptionist Agent", ""⟩

/-- C2 (witness): the amended theorem applied on a budget-exceeding run (the
incoming state comes back) and on a normally terminating run (the final state
comes back). -/
theorem c2_invoke_app_budget_witness :
    invoke_app loopEnv c2state = c2state ∧
    invoke_app greetEnv greetState =
      ⟨[Msg.human "hi", Msg.ai "Hello! How can I help you today?"], "Receptionist Agent", ""⟩ := by
  constructor
  · exact (c2_invoke_app_budget loopEnv c2state).2.1 c2accState rfl
  · exact (c2_invoke_app_budget greetEnv greetState).2.2
      ⟨[Msg.human "hi", Msg.ai "Hello! How can I help you today?"], "Receptionist Agent", ""⟩ rfl

/-! ### C3 — where an invocation starts -/

/-- A state whose active role is Clinical. -/
def c3state : AgentState :=
  ⟨[Msg.human "What does my creatinine level mean?"], "Clinical Agent", ""⟩

/-- C3 (counterexample).  The claim says the first node executed is the one
named by `current_agent`, so a state entering with active role Clinical should
begin at the Clinical node.  The entry point of the compiled graph is
hard-wired to `receptionist_agent_node`, so the first executed node on this
Clinical-role state is the Receptionist node. -/
theorem c3_counterexample :
    c3state.current_agent = Role.agentName Role.clinical ∧
    (appTrace loopEnv c3state 10).head? = some NodeName.receptionist_agent_node ∧
    NodeName.receptionist_agent_node ≠ NodeName.clinical_agent_node := by
  exact ⟨rfl, rfl, by decide⟩

/-- C3 (amended).  For every environment, input state and positive step limit,
the first node executed is the Receptionist node — the graph's entry point is
`workflow.set_entry_point("receptionist_agent_node")`, independent of the
state's `current_agent` field. -/
theorem c3_entry_point (env : Env) (state : AgentState) (fuel : Nat) :
    entry_point = NodeName.receptionist_agent_node ∧
    (appTrace env state (fuel + 1)).head? = some NodeName.receptionist_agent_node := by
  exact ⟨rfl, runGraph_head env fuel entry_point state⟩

/-! ### C4 — what `current_agent` means after a node runs -/

/-- A keyword-bearing turn for the Receptionist node. -/
def c4state : AgentState :=
  ⟨[Msg.human "I have swelling in my ankles"], "Receptionist Agent", "RECORD"⟩

/-- C4 (counterexample).  The claim says `current_agent` always names the role
that *produced* the just-appended assistant message, in particular that it
still names the Receptionist when that node emits `HANDOFF_TO_CLINICAL`.  Here
the Receptionist node emits exactly that sentinel and sets `current_agent` to
`"Clinical Agent"` — the handoff *target*, not the producer. -/
theorem c4_counterexample :
    (receptionist_node loopEnv c4state).messages = [Msg.ai "HANDOFF_TO_CLINICAL"] ∧
    (receptionist_node loopEnv c4state).current_agent = Role.agentName Role.clinical ∧
    Role.agentName Role.clinical ≠ Role.agentName Role.receptionist := by
  exact ⟨by decide, by decide, by decide⟩

/-- C4 (amended).  After every node execution `current_agent` names the
handoff *target* role whenever the node took a handoff path (keyword
short-circuit or sentinel in the agent's output), and the node's own role
otherwise (normal answers and caught exceptions). -/
theorem c4_current_agent (env : Env) (s : AgentState) :
    (receptionist_node env s).current_agent =
      (if keywordHit s then "Clinical Agent"
       else
         match env.receptionist_agent s with
         | .error _ => "Receptionist Agent"
         | .ok result =>
             if strContains result.output "HANDOFF_TO_CLINICAL" then "Clinical Agent"
             else "Receptionist Agent") ∧
    (clinical_node env s).current_agent =
      (match env.clinical_agent s with
       | .error _ => "Clinical Agent"
       | .ok result =>
           if strContains result.output "HANDOFF_TO_RECEPTIONIST" then "Receptionist Agent"
           else "Clinical Agent") := by
  constructor
  · unfold receptionist_node
    cases hk : keywordHit s with
    | true => simp [hk]
    | false =>
        simp only [hk, Bool.false_eq_true, if_false]
        cases hr : env.receptionist_agent s with
        | error e => simp
        | ok result =>
            cases ho : strContains result.output "HANDOFF_TO_CLINICAL" <;> simp [ho]
  · unfold clinical_node
    cases hc : env.clinical_agent s with
    | error e => simp
    | ok result =>
        cases ho : strContains result.output "HANDOFF_TO_RECEPTIONIST" <;> simp [ho]

/-! ### C5 — the medical-keyword short-circuit -/

/-- C5.  When the most recent user (non-assistant) message is non-empty and
its lowercasing contains one of the fixed medical keywords, the Receptionist
node returns exactly the `HANDOFF_TO_CLINICAL` sentinel message with output
role Clinical and the held `patient_report` unchanged — and the result is
independent of the agent environment, so neither the Role Agent nor the
Lookup Service behind it is consulted. -/
theorem c5_keyword_shortcircuit (env env' : Env) (s : AgentState) (q kw : String)
    (hq : lastUserQuery s.messages = q) (hne : q ≠ "")
    (hkw : kw ∈ medical_keywords) (hc : strContains (strLower q) kw = true) :
    receptionist_node env s =
      ⟨[Msg.ai "HANDOFF_TO_CLINICAL"], "Clinical Agent", s.patient_report⟩ ∧
    receptionist_node env s = receptionist_node env' s := by
  have hk : keywordHit s = true := by
    unfold keywordHit
    rw [hq]
    have h1 : (q != "") = true := by simpa using hne
    have h2 : medical_keywords.any (fun k => strContains (strLower q) k) = true :=
      List.any_eq_true.mpr ⟨kw, hkw, hc⟩
    simp [h1, h2]
  constructor
  · unfold receptionist_node
    simp [hk]
  · unfold receptionist_node
    simp [hk]

def c5state : AgentState :=
  ⟨[Msg.human "There is new swelling near my ankle"], "Receptionist Agent", "KEPT"⟩

def c5envA : Env :=
  { receptionist_agent := fun _ => .ok ⟨"agent A answer", []⟩
    clinical_agent := fun _ => .ok ⟨"", []⟩
    json_loads := fun _ => none }

def c5envB : Env :=
  { receptionist_agent := fun _ => .error "boom"
    clinical_agent := fun _ => .error "boom"
    json_loads := fun _ => some Jsn.null }

/-- C5 (witness): a user message containing "swelling" short-circuits to the
Clinical handoff with `patient_report` preserved, identically under two
different environments. -/
theorem c5_keyword_shortcircuit_witness :
    receptionist_node c5envA c5state =
      ⟨[Msg.ai "HANDOFF_TO_CLINICAL"], "Clinical Agent", "KEPT"⟩ ∧
    receptionist_node c5envA c5state = receptionist_node c5envB c5state := by
  have h := c5_keyword_shortcircuit c5envA c5envB c5state
    "There is new swelling near my ankle" "swelling" rfl (by decide) (by decide) (by decide)
  exact ⟨h.1, h.2⟩

/-! ### C6 — exceptions from the Role Agents are converted to apologies -/

/-- C6.  When delegation to the Role Agent raises (and, for the Receptionist,
the keyword short-circuit did not already bypass delegation), neither node
propagates the exception: the Receptionist returns the apology message with
role held at `Receptionist Agent` and `patient_report` unchanged, and the
Clinical node returns its apology with role remaining `Clinical Agent` and
`patient_report` unchanged.  Both nodes are total functions, so no exception
escapes to the driving loop. -/
theorem c6_failsoft (env : Env) (s : AgentState) (e₁ e₂ : String)
    (hk : keywordHit s = false)
    (hr : env.receptionist_agent s = Except.error e₁)
    (hc : env.clinical_agent s = Except.error e₂) :
    receptionist_node env s =
      ⟨[Msg.ai ("I encountered an error: " ++ e₁ ++ ". Please try again.")],
        "Receptionist Agent", s.patient_report⟩ ∧
    clinical_node env s =
      ⟨[Msg.ai ("I encountered an error while processing your medical question: " ++ e₂ ++
          ". Please try again or rephrase your question.")],
        "Clinical Agent", s.patient_report⟩ := by
  constructor
  · unfold receptionist_node
    simp [hk, hr]
  · unfold clinical_node
    simp [hc]

def c6env : Env :=
  { receptionist_agent := fun _ => .error "LLM unavailable"
    clinical_agent := fun _ => .error "LLM unavailable"
    json_loads := fun _ => none }

def c6state : AgentState := ⟨[Msg.human "thank you so much"], "Receptionist Agent", "HELD"⟩

/-- C6 (witness): a failing generation capability yields the two apology
states with roles held and the record preserved. -/
theorem c6_failsoft_witness :
    receptionist_node c6env c6state =
      ⟨[Msg.ai "I encountered an error: LLM unavailable. Please try again."],
        "Receptionist Agent", "HELD"⟩ ∧
    clinical_node c6env c6state =
      ⟨[Msg.ai ("I encountered an error while processing your medical question: " ++
          "LLM unavailable. Please try again or rephrase your question.")],
        "Clinical Agent", "HELD"⟩ := by
  have h := c6_failsoft c6env c6state "LLM unavailable" "LLM unavailable"
    (by decide) rfl rfl
  exact ⟨h.1, h.2⟩

/-! ### C7 — the Clinical node never touches `patient_report` -/

/-- C7.  For every environment and input state, the `patient_report`
(`extracted_record`) field of the state returned by the Clinical node is the
incoming value unchanged — on the normal path, on the handoff path and on the
exception path alike. -/
theorem c7_clinical_preserves_report (env : Env) (s : AgentState) :
    (clinical_node env s).patient_report = s.patient_report := by
  unfold clinical_node
  cases env.clinical_agent s with
  | error e => rfl
  | ok result =>
      dsimp only
      cases strContains result.output "HANDOFF_TO_RECEPTIONIST" <;> rfl

/-! ### C8 — the Lookup Service -/

/-- C8.  `get_patient_discharge_report` (a total, text-valued function — no
outcome is raised) collects, in database order, every stored full name that
matches the stripped query case-insensitively by exact equality or substring
containment in either direction.  Zero matches yield the fixed NotFound text
built only from the query (no record data); exactly one yields the full stored
record serialized as indented JSON tagged with the matched name; two or more
yield the Ambiguous text listing the candidate full names — and since exact
and substring matches land in the same collection, any two distinct matching
names (e.g. an exact match co-occurring with a substring match) force the
Ambiguous outcome. -/
theorem c8_lookup_contract (db : List (String × List (String × Jsn))) (patient_name : String) :
    (∀ n, n ∈ lookupMatches db patient_name ↔
      n ∈ db.map Prod.fst ∧
        (strLower n == strLower (pyStrip patient_name) ||
          (strContains (strLower n) (strLower (pyStrip patient_name)) ||
            strContains (strLower (pyStrip patient_name)) (strLower n))) = true) ∧
    (lookupMatches db patient_name = [] →
      get_patient_discharge_report db patient_name =
        "ERROR: Patient '" ++ patient_name ++
          "' not found in the database. Please check the spelling or confirm the patient's identity.") ∧
    (∀ n, lookupMatches db patient_name = [n] →
      get_patient_discharge_report db patient_name =
        pyDumps (Jsn.obj (pyDictLit (("patient_name", Jsn.str n) :: (db.lookup n).getD [])))) ∧
    (2 ≤ (lookupMatches db patient_name).length →
      get_patient_discharge_report db patient_name =
        "ERROR: Multiple patients found with similar names: " ++
          sepJoin ", " (lookupMatches db patient_name) ++ ". Please provide the full exact name.") ∧
    (∀ n₁ n₂, n₁ ∈ lookupMatches db patient_name → n₂ ∈ lookupMatches db patient_name →
      n₁ ≠ n₂ →
      get_patient_discharge_report db patient_name =
        "ERROR: Multiple patients found with similar names: " ++
          sepJoin ", " (lookupMatches db patient_name) ++ ". Please provide the full exact name.") := by
  have hmulti : 2 ≤ (lookupMatches db patient_name).length →
      get_patient_discharge_report db patient_name =
        "ERROR: Multiple patients found with similar names: " ++
          sepJoin ", " (lookupMatches db patient_name) ++ ". Please provide the full exact name." := by
    intro h2
    unfold get_patient_discharge_report
    have : (lookupMatches db patient_name).length > 1 := h2
    simp [this]
  refine ⟨?_, ?_, ?_, hmulti, ?_⟩
  · intro n
    unfold lookupMatches
    simp [List.mem_filter]
  · intro hnil
    unfold get_patient_discharge_report
    rw [hnil]
    simp
  · intro n hone
    unfold get_patient_discharge_report
    rw [hone]
    simp
  · intro n₁ n₂ h₁ h₂ hne
    apply hmulti
    cases hl : lookupMatches db patient_name with
    | nil => rw [hl] at h₁; simp at h₁
    | cons a t =>
        cases t with
        | nil =>
            rw [hl] at h₁ h₂
            simp at h₁ h₂
            exact absurd (h₁.trans h₂.symm) hne
        | cons b u => simp [hl]

/-- A two-record store exhibiting the exact-plus-substring ambiguity. -/
def c8db : List (String × List (String × Jsn)) :=
  [("John Smith", [("discharge_date", Jsn.str "2024-01-01"),
      ("primary_diagnosis", Jsn.str "CKD Stage 3")]),
   ("John Smithson", [("discharge_date", Jsn.str "2024-02-02"),
      ("primary_diagnosis", Jsn.str "AKI")])]

/-- C8 (witness): the contract applied on the concrete store — an unmatched
query gets the NotFound text, a uniquely matching query gets the tagged JSON
record, and the query "John Smith" (an exact match co-occurring with the
substring match "John Smithson") gets the Ambiguous text listing both names. -/
theorem c8_lookup_contract_witness :
    get_patient_discharge_report c8db "Zzqx" =
      "ERROR: Patient 'Zzqx' not found in the database. Please check the spelling or confirm the patient's identity." ∧
    get_patient_discharge_report c8db "Smithson" =
      pyDumps (Jsn.obj (pyDictLit (("patient_name", Jsn.str "John Smithson") ::
        (c8db.lookup "John Smithson").getD []))) ∧
    get_patient_discharge_report c8db "John Smith" =
      "ERROR: Multiple patients found with similar names: " ++
        sepJoin ", " (lookupMatches c8db "John Smith") ++ ". Please provide the full exact name." := by
  refine ⟨?_, ?_, ?_⟩
  · exact (c8_lookup_contract c8db "Zzqx").2.1 (by decide)
  · exact (c8_lookup_contract c8db "Smithson").2.2.1 "John Smithson" (by decide)
  · exact (c8_lookup_contract c8db "John Smith").2.2.2.2 "John Smith" "John Smithson"
      (by decide) (by decide) (by decide)

/-! ### C9 — best-effort record extraction in the Receptionist node -/

/-- C9.  On the delegation path the Receptionist node stores exactly the
result of the extraction scan over the agent's messages, seeded with the
incoming `patient_report`.  The scan itself: when no message both carries the
`patient_name`/`discharge_date` markers (with braces) and parses, the value is
left unchanged — every failure is silently swallowed; and when some
marker-bearing message parses (and no later one does), the stored value is the
re-serialization (`json.dumps(·, indent=2)`) of the JSON parsed from the
substring running from the message's first `"{"` to its last `"}"`, replacing
any previous value. -/
theorem c9_record_extraction (env : Env) (s : AgentState) (r : AgentRes)
    (hk : keywordHit s = false) (ha : env.receptionist_agent s = Except.ok r) :
    (receptionist_node env s).patient_report =
      scanReport env.json_loads r.messages s.patient_report ∧
    (∀ jl ms init, (∀ m ∈ ms, ¬ extractionFires jl m) → scanReport jl ms init = init) ∧
    (∀ (jl : String → Option Jsn) (init : String) (pre post : List Msg) (m : Msg) (v : Jsn),
      strContains m.content "patient_name" = true →
      strContains m.content "discharge_date" = true →
      strContains m.content "\x7b" = true →
      strContains m.content "\x7d" = true →
      jl (jsonSlice m.content) = some v →
      (∀ m' ∈ post, ¬ extractionFires jl m') →
      scanReport jl (pre ++ m :: post) init = pyDumps v) := by
  refine ⟨?_, scanReport_unchanged, ?_⟩
  · unfold receptionist_node
    simp only [hk, Bool.false_eq_true, if_false, ha]
    cases ho : strContains r.output "HANDOFF_TO_CLINICAL" <;> simp [ho]
  · intro jl init pre post m v h1 h2 h3 h4 hv hpost
    have hstep : ∀ acc, scanStep jl acc m = pyDumps v := by
      intro acc
      unfold scanStep
      simp [h1, h2, h3, h4, hv]
    unfold scanReport
    rw [List.foldl_append, List.foldl_cons, hstep]
    exact scanReport_unchanged jl post (pyDumps v) hpost

/-- A lookup-style tool payload carrying both markers and a JSON body. -/
def c9payload : String :=
  "Report found: \x7b\"patient_name\": \"Jane Roe\", \"discharge_date\": \"2024-03-04\"\x7d"

/-- The parse that `json.loads` would produce for `c9payload`'s brace slice. -/
def c9record : Jsn :=
  Jsn.obj [("patient_name", Jsn.str "Jane Roe"), ("discharge_date", Jsn.str "2024-03-04")]

def c9loads : String → Option Jsn :=
  fun s => if s == jsonSlice c9payload then some c9record else none

def c9env : Env :=
  { receptionist_agent := fun _ => .ok ⟨"I found your record, Jane.", [Msg.tool c9payload]⟩
    clinical_agent := fun _ => .ok ⟨"", []⟩
    json_loads := c9loads }

def c9state : AgentState := ⟨[Msg.human "My name is Jane Roe"], "Receptionist Agent", "OLD"⟩

/-- C9 (witness): on the concrete run the node stores the scan's result, a
marker-bearing parsable payload replaces the old value with the re-serialized
record, and a marker-free message list leaves it untouched. -/
theorem c9_record_extraction_witness :
    (receptionist_node c9env c9state).patient_report =
      scanReport c9loads [Msg.tool c9payload] "OLD" ∧
    scanReport c9loads [Msg.tool c9payload] "OLD" = pyDumps c9record ∧
    scanReport c9loads [Msg.ai "no markers here"] "OLD" = "OLD" := by
  have h := c9_record_extraction c9env c9state
    ⟨"I found your record, Jane.", [Msg.tool c9payload]⟩ (by decide) rfl
  refine ⟨h.1, ?_, ?_⟩
  · exact h.2.2 c9loads "OLD" [] [] (Msg.tool c9payload) c9record
      (by decide) (by decide) (by decide) (by decide) rfl (by simp)
  · exact h.2.1 c9loads [Msg.ai "no markers here"] "OLD"
      (by
        intro m hm
        simp only [List.mem_singleton] at hm
        subst hm
        intro hfire
        exact absurd hfire.1 (by decide))

/-! ### C10 — the retrieval chain -/

/-- C10.  The chain is built with `k = 3`.  When the similarity search returns
no passages the chain does not fabricate an answer: it returns the explicit
"no relevant context" signal (so the caller can fall back to External Search).
When passages are returned, the generation capability receives exactly the
retrieved passages concatenated with the `\n\n---\n\n` separator, the `i`-th
piece being its section label followed by the passage truncated to its first
2000 characters — a bounded size. -/
theorem c10_retrieval_chain (env : RagEnv) (query : String) :
    chain_k = 3 ∧
    (env.similarity_search query chain_k = [] →
      ragInvoke env chain_k query =
        "No relevant context found in the local nephrology reference. Please try rephrasing or allow web search.") ∧
    (∀ docs, env.similarity_search query chain_k = docs → docs ≠ [] →
      ragInvoke env chain_k query =
        (match env.llm (contextFor docs) query with
         | .ok answer =>
             answer ++ "\n\n[Source: Internal Nephrology Reference - " ++ toString docs.length ++
               " section(s) retrieved]"
         | .error e =>
             "Retrieved context:\n" ++ contextFor docs ++
               "\n\n[Source: Internal Nephrology Reference] - (LLM generation failed with error: " ++
               e ++ ")")) ∧
    (∀ (docs : List Doc) (i : Nat), i < docs.length →
      (contextPieces docs).getD i "" =
        "[Section " ++ toString (i + 1) ++ "]\n" ++ pyTake (docs.getD i ⟨""⟩).page_content 2000 ∧
      (pyTake (docs.getD i ⟨""⟩).page_content 2000).length ≤ 2000) := by
  refine ⟨rfl, ?_, ?_, ?_⟩
  · intro hempty
    unfold ragInvoke
    rw [hempty]
    rfl
  · intro docs hdocs hne
    have hemp : docs.isEmpty = false := by
      cases docs with
      | nil => exact absurd rfl hne
      | cons d ds => rfl
    simp only [ragInvoke]
    rw [hdocs, hemp]
    rfl
  · intro docs i hi
    constructor
    · have := contextPiecesFrom_getD 1 docs i hi
      rw [contextPieces, this]
      have harith : 1 + i = i + 1 := by omega
      rw [harith]
    · show ((docs.getD i ⟨""⟩).page_content.data.take 2000).length ≤ 2000
      rw [List.length_take]
      exact min_le_left _ _

def c10docs : List Doc := [⟨"alpha passage"⟩, ⟨"beta passage"⟩]

def c10envEmpty : RagEnv :=
  { similarity_search := fun _ _ => []
    llm := fun _ _ => .ok "should not be used" }

def c10envDocs : RagEnv :=
  { similarity_search := fun _ _ => c10docs
    llm := fun context question => .ok ("ANSWER about " ++ question ++ " from " ++ context) }

/-- C10 (witness): the chain applied with an empty retrieval (the no-context
signal comes back), with two retrieved passages (the generation capability is
handed the labelled, truncated, separator-joined context), and the first
context piece with its 2000-character bound. -/
theorem c10_retrieval_chain_witness :
    ragInvoke c10envEmpty chain_k "what is CKD" =
      "No relevant context found in the local nephrology reference. Please try rephrasing or allow web search." ∧
    ragInvoke c10envDocs chain_k "what is CKD" =
      ("ANSWER about what is CKD from " ++ contextFor c10docs ++
        "\n\n[Source: Internal Nephrology Reference - 2 section(s) retrieved]") ∧
    (contextPieces c10docs).getD 0 "" = "[Section 1]\n" ++ pyTake "alpha passage" 2000 ∧
    (pyTake "alpha passage" 2000).length ≤ 2000 := by
  refine ⟨?_, ?_, ?_, ?_⟩
  · exact (c10_retrieval_chain c10envEmpty "what is CKD").2.1 rfl
  · exact (c10_retrieval_chain c10envDocs "what is CKD").2.2.1 c10docs rfl (by decide)
  · exact ((c10_retrieval_chain c10envDocs "what is CKD").2.2.2 c10docs 0 (by decide)).1
  · exact ((c10_retrieval_chain c10envDocs "what is CKD").2.2.2 c10docs 0 (by decide)).2

end DataSmith
